import Mathlib

/-
Verification of the real-time room messaging and presence subsystem of the
"Let's Study Now" web client.

The definitions below are a shallow embedding of the TypeScript source:

  * `src/frontend/src/pages/OpenStudyRoom.tsx` - the event reconciliation
    engine (`handleWebSocketMessage`, `loadChatHistory`, `addSystemMessage`,
    `handleAcceptAnswer`), the join/leave lifecycle handlers
    (`handleBeforeUnload`, `leaveRoom`, the unmount cleanup), and the local
    study timer (`timer useEffect`, `handleStatusToggle`, `handleTimerReset`).
  * `src/lib/websocket.ts` (src/unnamed/part_003) - the `WebSocketService`
    singleton: `connect`, `subscribe`, `unsubscribe`, `disconnect`,
    `handleReconnect`.
  * `src/unnamed/part_001` - the group study room page, whose
    `handleBeforeUnload` differs from the open study room's.

JavaScript numbers are modelled as `Int`, optional fields as `Option`,
JavaScript truthiness of an optional number as "present and nonzero", and
string-literal unions (such as the question status `"open" | "helping" |
"resolved"` and the timer status `"studying" | "resting"`) as `String`,
exactly as the source stores them.  React `setMessages` state updates become
pure functions from the previous message list to the next one.  Wall-clock
reads (`Date.now()`, `new Date()`) are passed in as an explicit `now`
parameter.  Fields of the `ChatMessage` record that the cited code only ever
sets to `undefined` (`senderId`, `senderProfileImage`, `fileName`,
`fileSize`, `answererId`, `answererProfileImage`) are omitted.
-/

namespace StudyRoom

/-- Wire-level message kinds (`MessageType` in `src/lib/websocket.ts`). -/
inductive MessageType where
  | TALK
  | QUESTION
  | ANSWER
  | SOLVE
  | SYSTEM
deriving DecidableEq, Repr

/-- Room kinds (`RoomType` in `src/lib/websocket.ts`). -/
inductive RoomType where
  | OPEN
  | GROUP
deriving DecidableEq, Repr

/-- Inbound wire message (`WebSocketMessage` in `src/lib/websocket.ts`).
`id` and `messageId` are both optional; `sentAt` is an abstract timestamp. -/
structure WebSocketMessage where
  id : Option Int
  messageId : Option Int
  type : MessageType
  roomType : RoomType
  roomId : Int
  sender : String
  message : String
  refId : Option Int
  isSolved : Option Bool
  sentAt : Int
  imageUrl : Option String
deriving DecidableEq, Repr

/-- An answer attached to a question (`HelpAnswer` in `OpenStudyRoom.tsx`). -/
structure HelpAnswer where
  id : Int
  answerer : String
  content : String
  timestamp : Int
  isAccepted : Option Bool
deriving DecidableEq, Repr

/-- A reconciled timeline entry (`ChatMessage` in `OpenStudyRoom.tsx`).
`status` is one of the string literals "open", "helping", "resolved" when
present, exactly as in the source. -/
structure ChatMessage where
  id : Int
  type : MessageType
  sender : String
  content : String
  imageUrl : Option String
  timestamp : Int
  answers : Option (List HelpAnswer)
  status : Option String
  refId : Option Int
  isSolved : Option Bool
deriving DecidableEq, Repr

/-- JavaScript truthiness of an optional number: `undefined` and `0` are
falsy, every other number is truthy. -/
def jsTruthyNum : Option Int → Bool
  | some v => v != 0
  | none => false

/-- The id defaulting chain `wsMessage.id || wsMessage.messageId || 0`
(`OpenStudyRoom.tsx` line 309). -/
def computeMessageId (id messageId : Option Int) : Int :=
  if jsTruthyNum id then id.getD 0
  else if jsTruthyNum messageId then messageId.getD 0
  else 0

/-- The `newMessage` object literal built at the top of
`handleWebSocketMessage` (`OpenStudyRoom.tsx` lines 311-322). -/
def newMessageOfWs (ws : WebSocketMessage) : ChatMessage :=
  { id := computeMessageId ws.id ws.messageId
    type := ws.type
    sender := ws.sender
    content := ws.message
    imageUrl := ws.imageUrl
    timestamp := ws.sentAt
    answers := none
    status := none
    refId := ws.refId
    isSolved := ws.isSolved }

/-- The per-entry update applied by the live ANSWER branch
(`OpenStudyRoom.tsx` lines 343-371): if the entry is the QUESTION whose id
equals the answer's `refId`, append the new `HelpAnswer` (with
`isAccepted: false`) and set the status to "helping"; otherwise leave the
entry unchanged. -/
def attachAnswerUpdate (ws : WebSocketMessage) (msg : ChatMessage) : ChatMessage :=
  if some msg.id = ws.refId ∧ msg.type = MessageType.QUESTION then
    { msg with
      answers := some ((msg.answers.getD []) ++
        [{ id := computeMessageId ws.id ws.messageId
           answerer := ws.sender
           content := ws.message
           timestamp := ws.sentAt
           isAccepted := some false }])
      status := some "helping" }
  else msg

/-- The per-entry update applied by the live SOLVE branch
(`OpenStudyRoom.tsx` lines 376-390): the matching QUESTION gets
`status := "resolved"` and `isSolved := true`; nothing else changes.
The answers (and their accepted flags) are not touched. -/
def solveUpdate (ws : WebSocketMessage) (msg : ChatMessage) : ChatMessage :=
  if some msg.id = ws.refId ∧ msg.type = MessageType.QUESTION then
    { msg with status := some "resolved", isSolved := some true }
  else msg

/-- The locally synthesized SYSTEM entry built by `addSystemMessage`
(`OpenStudyRoom.tsx` lines 795-804): its id is `Date.now()` and its
timestamp `new Date()`, both the current wall clock `now`. -/
def systemMessageEntry (now : Int) (content : String) : ChatMessage :=
  { id := now
    type := MessageType.SYSTEM
    sender := "SYSTEM"
    content := content
    imageUrl := none
    timestamp := now
    answers := none
    status := none
    refId := none
    isSolved := none }

/-- `addSystemMessage` (`OpenStudyRoom.tsx` lines 795-804) as a state
update on the message list. -/
def addSystemMessage (now : Int) (content : String) (prev : List ChatMessage) :
    List ChatMessage :=
  prev ++ [systemMessageEntry now content]

/-- `handleWebSocketMessage` (`OpenStudyRoom.tsx` lines 306-401) as a pure
update of the message list.  `now` is the wall clock read by
`addSystemMessage` in the SOLVE and SYSTEM branches. -/
def handleWebSocketMessage (now : Int) (ws : WebSocketMessage)
    (prev : List ChatMessage) : List ChatMessage :=
  let newMessage := newMessageOfWs ws
  match ws.type with
  | MessageType.QUESTION =>
      prev ++ [{ newMessage with status := some "open", answers := some [] }]
  | MessageType.ANSWER =>
      if jsTruthyNum ws.refId then prev.map (attachAnswerUpdate ws)
      else prev
  | MessageType.SOLVE =>
      let afterSolve :=
        if jsTruthyNum ws.refId then prev.map (solveUpdate ws) else prev
      addSystemMessage now ws.message afterSolve
  | MessageType.SYSTEM =>
      addSystemMessage now ws.message prev
  | MessageType.TALK =>
      prev ++ [newMessage]

/-- The per-answer update of `handleAcceptAnswer` (`OpenStudyRoom.tsx`
lines 925-927): mark the answer with the accepted id. -/
def acceptMarkAnswer (answerId : Int) (ans : HelpAnswer) : HelpAnswer :=
  if ans.id = answerId then { ans with isAccepted := some true } else ans

/-- The optimistic local state update of `handleAcceptAnswer`
(`OpenStudyRoom.tsx` lines 920-933), performed after the REST call
succeeds: the matching QUESTION has the accepted answer marked, status set
to "resolved" and `isSolved := true`. -/
def acceptAnswerUpdate (questionId answerId : Int) (prev : List ChatMessage) :
    List ChatMessage :=
  prev.map (fun msg =>
    if msg.id = questionId ∧ msg.type = MessageType.QUESTION then
      { msg with
        answers := msg.answers.map (fun l => l.map (acceptMarkAnswer answerId))
        status := some "resolved"
        isSolved := some true }
    else msg)

/-- A REST history record (`ChatMessage` in `src/lib/api.ts`, imported as
`APIChatMessage` in `OpenStudyRoom.tsx`). -/
structure APIChatMessage where
  id : Int
  type : MessageType
  roomType : RoomType
  roomId : Int
  sender : String
  message : String
  refId : Option Int
  isSolved : Option Bool
  sentAt : Int
  imageUrl : Option String
deriving DecidableEq, Repr

/-- The `baseMessage` mapping of `loadChatHistory` (`OpenStudyRoom.tsx`
lines 422-442): QUESTION entries additionally get an empty answer list and
status "resolved" when `isSolved` is truthy, "open" otherwise. -/
def baseMessageOfApi (apiMsg : APIChatMessage) : ChatMessage :=
  let base : ChatMessage :=
    { id := apiMsg.id
      type := apiMsg.type
      sender := apiMsg.sender
      content := apiMsg.message
      imageUrl := apiMsg.imageUrl
      timestamp := apiMsg.sentAt
      answers := none
      status := none
      refId := apiMsg.refId
      isSolved := apiMsg.isSolved }
  if apiMsg.type = MessageType.QUESTION then
    { base with
      status := some (if apiMsg.isSolved.getD false then "resolved" else "open")
      answers := some [] }
  else base

/-- Update the first element of a list satisfying `p` in place, leaving
everything else unchanged.  This models the mutation of the object returned
by `loadedMessages.find(...)` in `loadChatHistory`. -/
def updateFirst (p : ChatMessage → Bool) (f : ChatMessage → ChatMessage) :
    List ChatMessage → List ChatMessage
  | [] => []
  | m :: rest => if p m then f m :: rest else m :: updateFirst p f rest

/-- One iteration of the `loadedMessages.forEach` answer-attachment pass of
`loadChatHistory` (`OpenStudyRoom.tsx` lines 444-465).  The iterated item
`msg` is an ANSWER entry of the original mapped list (the pass never mutates
ANSWER entries, so iterating the original items is faithful to the in-place
mutation of the source); `acc` is the list as mutated so far.  The first
QUESTION whose id equals `msg.refId` receives the answer (with no
`isAccepted` field) and, if it has answers and its `isSolved` is falsy, its
status becomes "helping". -/
def historyAttachStep (acc : List ChatMessage) (msg : ChatMessage) :
    List ChatMessage :=
  if msg.type = MessageType.ANSWER ∧ jsTruthyNum msg.refId then
    updateFirst
      (fun m => some m.id == msg.refId && m.type == MessageType.QUESTION)
      (fun q =>
        let answer : HelpAnswer :=
          { id := msg.id
            answerer := msg.sender
            content := msg.content
            timestamp := msg.timestamp
            isAccepted := none }
        let newAnswers := (q.answers.getD []) ++ [answer]
        let withAnswers := { q with answers := some newAnswers }
        if 0 < newAnswers.length ∧ ¬(q.isSolved.getD false) then
          { withAnswers with status := some "helping" }
        else withAnswers)
      acc
  else acc

/-- `loadChatHistory`'s pure part (`OpenStudyRoom.tsx` lines 404-477): map
the REST page to `ChatMessage`s, fold the answers of the page into their
questions, drop the standalone ANSWER entries, and replace the whole
message state with the result.  A non-array or empty response resets the
state to the empty list, which coincides with this function on `[]`. -/
def loadChatHistoryMessages (response : List APIChatMessage) :
    List ChatMessage :=
  let loadedMessages := response.map baseMessageOfApi
  let attached := loadedMessages.foldl historyAttachStep loadedMessages
  attached.filter (fun m => m.type != MessageType.ANSWER)

/-- An event interleaving observed by the message state after `joinRoom`'s
`onConnected` callback has run (`OpenStudyRoom.tsx` lines 561-575).  The
callback starts `loadChatHistory(roomIdNum)` WITHOUT awaiting it and then
subscribes, so live pushes and the history response race: `live` is a
message delivered through the subscription, `historyArrives` is the
completion of the history fetch, whose `setMessages(filteredMessages)`
replaces the whole state. -/
inductive JoinEvent where
  | live (now : Int) (ws : WebSocketMessage)
  | historyArrives (response : List APIChatMessage)

/-- Effect of one `JoinEvent` on the message state. -/
def joinStep (messages : List ChatMessage) : JoinEvent → List ChatMessage
  | JoinEvent.live now ws => handleWebSocketMessage now ws messages
  | JoinEvent.historyArrives response => loadChatHistoryMessages response

/-- Message state after a given interleaving of live deliveries and the
history completion, starting from the initial empty state. -/
def runJoin (events : List JoinEvent) : List ChatMessage :=
  events.foldl joinStep []

/-- Number of answers of a timeline entry marked accepted. -/
def acceptedCount (msg : ChatMessage) : Nat :=
  ((msg.answers.getD []).filter (fun a => a.isAccepted == some true)).length

/-
The `WebSocketService` singleton (`src/lib/websocket.ts`).  Its mutable
fields become a state record; STOMP subscriptions are a list of
(subscription key, handler) pairs, where the handler is abstracted to an
identifier; the `Map.has` guard in `subscribe` keeps at most one pair per
key.  Transport callbacks (`onConnect`, `onDisconnect`) become explicit
state transitions.
-/

/-- The fields of the `WebSocketService` class.  `hasClient` models
`this.client !== null`, `connected` models `this.client.connected`. -/
structure WSState where
  hasClient : Bool
  connected : Bool
  subscriptions : List (String × Nat)
  reconnectAttempts : Nat
  shouldReconnect : Bool
deriving DecidableEq, Repr

/-- `maxReconnectAttempts` (`websocket.ts` line 37). -/
def maxReconnectAttempts : Nat := 5

/-- `reconnectDelay` in milliseconds (`websocket.ts` line 38). -/
def reconnectDelay : Nat := 3000

/-- The subscription key `` `${roomType}-${roomId}` `` (`websocket.ts`
line 152). -/
def subKey (roomType : RoomType) (roomId : Int) : String :=
  (match roomType with
   | RoomType.OPEN => "OPEN"
   | RoomType.GROUP => "GROUP") ++ "-" ++ toString roomId

/-- `WebSocketService.subscribe` (`websocket.ts` lines 141-175).  When the
client is absent or not connected the call logs and returns with no state
change and no exception; when the key is already subscribed it is a no-op;
otherwise the STOMP subscription is registered. -/
def subscribe (s : WSState) (roomId : Int) (roomType : RoomType)
    (handler : Nat) : WSState :=
  if ¬(s.hasClient ∧ s.connected) then s
  else if s.subscriptions.any (fun kv => kv.1 = subKey roomType roomId) then s
  else { s with
         subscriptions := s.subscriptions ++ [(subKey roomType roomId, handler)] }

/-- `WebSocketService.unsubscribe` (`websocket.ts` lines 182-191). -/
def unsubscribe (s : WSState) (roomId : Int) (roomType : RoomType) : WSState :=
  { s with
    subscriptions :=
      s.subscriptions.filter (fun kv => kv.1 != subKey roomType roomId) }

/-- Handlers to which one inbound frame on the topic of
`(roomType, roomId)` is delivered: the STOMP client invokes the message
callback of every active subscription to that destination exactly once. -/
def deliveries (s : WSState) (roomId : Int) (roomType : RoomType) : List Nat :=
  (s.subscriptions.filter (fun kv => kv.1 = subKey roomType roomId)).map
    Prod.snd

/-- `WebSocketService.connect` (`websocket.ts` lines 46-103): an already
connected client invokes `onConnected` and returns; a missing token invokes
`onError` and returns; otherwise `shouldReconnect` is re-armed and a fresh
client is created and activated (`connected` becomes true only when the
transport's `onConnect` fires, see `onConnectSuccess`). -/
def connect (s : WSState) (hasToken : Bool) : WSState :=
  if s.hasClient ∧ s.connected then s
  else if ¬hasToken then s
  else { s with shouldReconnect := true, hasClient := true }

/-- The `onConnect` transport callback (`websocket.ts` lines 77-81): a
successful connect resets the reconnect attempt counter to zero. -/
def onConnectSuccess (s : WSState) : WSState :=
  { s with connected := true, reconnectAttempts := 0 }

/-- `WebSocketService.disconnect` (`websocket.ts` lines 223-241): arms or
disarms reconnection (`shouldReconnect := ¬preventReconnect`, where
`preventReconnect` defaults to true at every call site of this repository)
and, when a client exists, unsubscribes everything and deactivates it. -/
def disconnect (s : WSState) (preventReconnect : Bool) : WSState :=
  let s1 := { s with shouldReconnect := ¬preventReconnect }
  if s1.hasClient then
    { s1 with subscriptions := [], hasClient := false, connected := false }
  else s1

/-- Observable outcome of the reconnect logic after a transport drop. -/
inductive ReconnectOutcome where
  | scheduledRetry (delayMs : Nat)
  | terminalError (message : String)
  | disabled
deriving DecidableEq, Repr

/-- `WebSocketService.handleReconnect` (`websocket.ts` lines 108-133): when
reconnection is disarmed, nothing happens; below the attempt cap the
counter is incremented and a retry is scheduled after
`reconnectDelay * attempts` milliseconds; at the cap the registered error
callback receives the terminal error and no retry is scheduled. -/
def handleReconnect (s : WSState) : ReconnectOutcome × WSState :=
  if ¬s.shouldReconnect then (ReconnectOutcome.disabled, s)
  else if s.reconnectAttempts < maxReconnectAttempts then
    let attempts := s.reconnectAttempts + 1
    (ReconnectOutcome.scheduledRetry (reconnectDelay * attempts),
     { s with reconnectAttempts := attempts })
  else
    (ReconnectOutcome.terminalError "Max reconnection attempts reached", s)

/-- The `onDisconnect` transport callback (`websocket.ts` lines 91-99): an
unexpected transport drop runs `handleReconnect` only while
`shouldReconnect` holds. -/
def onDisconnectDrop (s : WSState) : ReconnectOutcome × WSState :=
  if s.shouldReconnect then handleReconnect s
  else (ReconnectOutcome.disabled, s)

/-- Outcomes of `n` consecutive transport drops. -/
def dropOutcomes : Nat → WSState → List ReconnectOutcome × WSState
  | 0, s => ([], s)
  | n + 1, s =>
      let (o, s1) := onDisconnectDrop s
      let (os, s2) := dropOutcomes n s1
      (o :: os, s2)

/-
Room lifecycle handlers of `OpenStudyRoom.tsx` and of the group study room
page (`src/unnamed/part_001`).  The observable effects are tracked as
counters of external calls; `localMarker` models the presence of the
`"currentOpenStudyRoom"` key in `localStorage`.
-/

/-- Lifecycle-relevant state of the open study room page: the
`hasJoinedRef` and `isLeavingRef` refs, the local-storage room marker, and
counters of `openStudyAPI.leaveRoom` and `sessionAPI.endSession` calls. -/
structure OpenRoomState where
  hasJoined : Bool
  isLeaving : Bool
  localMarker : Bool
  leaveMembershipCalls : Nat
  sessionEndCalls : Nat
deriving DecidableEq, Repr

/-- `handleBeforeUnload` of the open study room (`OpenStudyRoom.tsx` lines
651-661), fired on page refresh or tab close: when joined and not already
leaving, it only removes the local-storage marker; it issues no server
call. -/
def openHandleBeforeUnload (roomIdPresent : Bool) (s : OpenRoomState) :
    OpenRoomState :=
  if ¬roomIdPresent ∨ ¬s.hasJoined ∨ s.isLeaving then s
  else { s with localMarker := false }

/-- `leaveRoom` of the open study room (`OpenStudyRoom.tsx` lines
677-711): guarded by `isLeavingRef`, it sets the leaving flag, clears the
local marker, calls `openStudyAPI.leaveRoom` once and resets
`hasJoinedRef`; it does not call `sessionAPI.endSession`.  The success and
failure paths of the `try` have the same observable state effects. -/
def leaveRoom (roomIdPresent : Bool) (s : OpenRoomState) : OpenRoomState :=
  if ¬roomIdPresent ∨ s.isLeaving then s
  else { s with
         isLeaving := true
         localMarker := false
         leaveMembershipCalls := s.leaveMembershipCalls + 1
         hasJoined := false }

/-- The cleanup of the `beforeunload` effect (`OpenStudyRoom.tsx` lines
665-673), run on component unmount (in-app navigation away): when still
joined and not already leaving, it performs the full `leaveRoom`. -/
def openUnmountCleanup (roomIdPresent : Bool) (s : OpenRoomState) :
    OpenRoomState :=
  if roomIdPresent ∧ s.hasJoined ∧ ¬s.isLeaving then leaveRoom roomIdPresent s
  else s

/-- Lifecycle-relevant state of the group study room page
(`src/unnamed/part_001`): its refs plus a counter of leave-membership
requests sent to the server. -/
structure GroupRoomState where
  hasJoined : Bool
  isLeaving : Bool
  hasUserId : Bool
  leaveMembershipCalls : Nat
deriving DecidableEq, Repr

/-- `handleBeforeUnload` of the group study room (`src/unnamed/part_001`
lines 1071-1093), fired on page refresh or tab close: when joined, not
leaving and a user id is available, it sets the leaving flag, tears down
the websocket and sends a keepalive `POST .../leave` leave-membership
request to the server. -/
def groupHandleBeforeUnload (roomIdPresent : Bool) (s : GroupRoomState) :
    GroupRoomState :=
  if roomIdPresent ∧ s.hasJoined ∧ ¬s.isLeaving ∧ s.hasUserId then
    { s with
      isLeaving := true
      leaveMembershipCalls := s.leaveMembershipCalls + 1 }
  else s

/-
The local study timer of `OpenStudyRoom.tsx`: the `myStatus` state
("studying" | "resting"), the `currentSeconds` counter, the one-second
interval that exists only while studying (lines 219-239), the status
toggle (lines 713-740) and the reset (lines 742-748).
-/

/-- Timer-relevant state of the open study room page. -/
structure TimerState where
  myStatus : String
  currentSeconds : Nat
deriving DecidableEq, Repr

/-- One firing of the one-second interval (`OpenStudyRoom.tsx` lines
219-239): the interval is installed only while `myStatus` is "studying",
so a second elapsing increments the counter exactly in that state and
leaves it untouched otherwise. -/
def timerTick (s : TimerState) : TimerState :=
  if s.myStatus = "studying" then
    { s with currentSeconds := s.currentSeconds + 1 }
  else s

/-- `handleStatusToggle` (`OpenStudyRoom.tsx` lines 713-740) restricted to
the timer state: switching to the same status is a no-op, otherwise only
`myStatus` changes (`currentSeconds` is never modified). -/
def handleStatusToggle (s : TimerState) (newStatus : String) : TimerState :=
  if s.myStatus = newStatus then s
  else { s with myStatus := newStatus }

/-- `handleTimerReset` (`OpenStudyRoom.tsx` lines 742-748): the counter is
zeroed, the studying or resting status is untouched. -/
def handleTimerReset (s : TimerState) : TimerState :=
  { s with currentSeconds := 0 }

/-- C8: the elapsed-seconds counter increments once per tick exactly while
the local status is "studying" and is paused while "resting"; toggling the
status never changes the counter, so switching back to "studying" resumes
from the paused value; and an explicit reset zeroes the counter without
changing the studying/resting status. -/
theorem timer_pause_correctness :
    (∀ s : TimerState, s.myStatus = "studying" →
      timerTick s = { s with currentSeconds := s.currentSeconds + 1 }) ∧
    (∀ s : TimerState, s.myStatus = "resting" → timerTick s = s) ∧
    (∀ (s : TimerState) (newStatus : String),
      (handleStatusToggle s newStatus).currentSeconds = s.currentSeconds) ∧
    (∀ s : TimerState, s.myStatus = "resting" →
      timerTick (handleStatusToggle s "studying") =
        { myStatus := "studying", currentSeconds := s.currentSeconds + 1 }) ∧
    (∀ s : TimerState,
      handleTimerReset s = { s with currentSeconds := 0 } ∧
      (handleTimerReset s).myStatus = s.myStatus) := by
  refine ⟨?_, ?_, ?_, ?_, ?_⟩
  · intro s h
    simp [timerTick, h]
  · intro s h
    simp [timerTick, h]
  · intro s newStatus
    simp only [handleStatusToggle]
    split <;> rfl
  · intro s h
    have hne : s.myStatus ≠ "studying" := by rw [h]; decide
    simp [handleStatusToggle, hne, timerTick]
  · intro s
    exact ⟨rfl, rfl⟩

/-- Witness for C8 at concrete timer states. -/
theorem timer_pause_correctness_witness :
    timerTick ⟨"studying", 3⟩ = ⟨"studying", 4⟩ ∧
    timerTick ⟨"resting", 4⟩ = ⟨"resting", 4⟩ ∧
    (handleStatusToggle ⟨"studying", 4⟩ "resting").currentSeconds = 4 ∧
    timerTick (handleStatusToggle ⟨"resting", 7⟩ "studying") = ⟨"studying", 8⟩ ∧
    handleTimerReset ⟨"resting", 9⟩ = ⟨"resting", 0⟩ :=
  ⟨timer_pause_correctness.1 ⟨"studying", 3⟩ rfl,
   timer_pause_correctness.2.1 ⟨"resting", 4⟩ rfl,
   timer_pause_correctness.2.2.1 ⟨"studying", 4⟩ "resting",
   timer_pause_correctness.2.2.2.1 ⟨"resting", 7⟩ rfl,
   (timer_pause_correctness.2.2.2.2 ⟨"resting", 9⟩).1⟩

/-- C5: subscribing twice to the same `(roomId, roomType)` pair leaves the
registration of the first call unchanged (the second call is a no-op), so
a single inbound frame for that pair is delivered to exactly the one
registered handler. -/
theorem idempotent_subscribe :
    (∀ (s : WSState) (roomId : Int) (roomType : RoomType) (h1 h2 : Nat),
      subscribe (subscribe s roomId roomType h1) roomId roomType h2 =
        subscribe s roomId roomType h1) ∧
    (∀ (s : WSState) (roomId : Int) (roomType : RoomType) (handler : Nat),
      s.hasClient = true → s.connected = true →
      deliveries s roomId roomType = [] →
      deliveries
        (subscribe (subscribe s roomId roomType handler) roomId roomType handler)
        roomId roomType = [handler]) := by
  constructor
  · intro s roomId roomType h1 h2
    by_cases hc : s.hasClient ∧ s.connected
    · by_cases hp : s.subscriptions.any
          (fun kv => decide (kv.1 = subKey roomType roomId)) = true
      · simp [subscribe, hc, hp]
      · simp [subscribe, hc, hp]
    · simp [subscribe, hc]
  · intro s roomId roomType handler hcl hco hdel
    have hfil : s.subscriptions.filter
        (fun kv => decide (kv.1 = subKey roomType roomId)) = [] := by
      simpa [deliveries] using hdel
    have hany : s.subscriptions.any
        (fun kv => decide (kv.1 = subKey roomType roomId)) = false := by
      rw [List.any_eq_false]
      intro kv hkv
      have := List.filter_eq_nil_iff.mp hfil kv hkv
      simpa using this
    simp [subscribe, hcl, hco, hany, deliveries, List.filter_append, hfil]

/-- Witness for C5 at a concrete fresh connected service state. -/
theorem idempotent_subscribe_witness :
    subscribe (subscribe ⟨true, true, [], 0, true⟩ 3 RoomType.OPEN 11) 3
        RoomType.OPEN 12 =
      subscribe ⟨true, true, [], 0, true⟩ 3 RoomType.OPEN 11 ∧
    deliveries
      (subscribe (subscribe ⟨true, true, [], 0, true⟩ 3 RoomType.OPEN 11) 3
        RoomType.OPEN 11) 3 RoomType.OPEN = [11] :=
  ⟨idempotent_subscribe.1 ⟨true, true, [], 0, true⟩ 3 RoomType.OPEN 11 12,
   idempotent_subscribe.2 ⟨true, true, [], 0, true⟩ 3 RoomType.OPEN 11 rfl rfl
     rfl⟩

/-- C9: calling `subscribe` while the client is absent or not connected is
silently dropped: the state (in particular the handler registry) is
unchanged, the function returns normally rather than raising, and a later
successful connect does not create the subscription retroactively. -/
theorem subscribe_not_connected_dropped (s : WSState) (roomId : Int)
    (roomType : RoomType) (handler : Nat)
    (hc : ¬(s.hasClient = true ∧ s.connected = true)) :
    subscribe s roomId roomType handler = s ∧
    (connect (subscribe s roomId roomType handler) true).subscriptions =
      s.subscriptions ∧
    (onConnectSuccess
        (connect (subscribe s roomId roomType handler) true)).subscriptions =
      s.subscriptions := by
  have h1 : subscribe s roomId roomType handler = s := by
    simp only [subscribe]
    rw [if_pos]
    simpa using hc
  refine ⟨h1, ?_, ?_⟩ <;>
    · rw [h1]
      simp only [connect, onConnectSuccess]
      split
      · rfl
      · split <;> rfl

/-- Witness for C9 at a concrete disconnected service state. -/
theorem subscribe_not_connected_dropped_witness :
    subscribe ⟨false, false, [], 0, true⟩ 3 RoomType.OPEN 11 =
      ⟨false, false, [], 0, true⟩ ∧
    (connect (subscribe ⟨false, false, [], 0, true⟩ 3 RoomType.OPEN 11)
        true).subscriptions = [] ∧
    (onConnectSuccess
        (connect (subscribe ⟨false, false, [], 0, true⟩ 3 RoomType.OPEN 11)
          true)).subscriptions = [] :=
  subscribe_not_connected_dropped ⟨false, false, [], 0, true⟩ 3 RoomType.OPEN 11
    (by simp)

/-- C7: with reconnection armed, the N-th consecutive drop schedules a
retry after `N * reconnectDelay` milliseconds while the attempt counter is
below `maxReconnectAttempts`; at the cap the registered error callback
receives the terminal error and no retry is scheduled; a successful
connect resets the counter to zero; after `disconnect` with
`preventReconnect = true`, a drop triggers no reconnect attempt.  Starting
from a fresh armed state, seven consecutive drops produce exactly five
linearly spaced retries followed by terminal errors. -/
theorem reconnect_backoff_and_cap :
    (∀ s : WSState, s.shouldReconnect = true →
      s.reconnectAttempts < maxReconnectAttempts →
      onDisconnectDrop s =
        (ReconnectOutcome.scheduledRetry
          (reconnectDelay * (s.reconnectAttempts + 1)),
         { s with reconnectAttempts := s.reconnectAttempts + 1 })) ∧
    (∀ s : WSState, s.shouldReconnect = true →
      maxReconnectAttempts ≤ s.reconnectAttempts →
      onDisconnectDrop s =
        (ReconnectOutcome.terminalError "Max reconnection attempts reached",
         s)) ∧
    (∀ s : WSState, (onConnectSuccess s).reconnectAttempts = 0) ∧
    (∀ s : WSState,
      (disconnect s true).shouldReconnect = false ∧
      onDisconnectDrop (disconnect s true) =
        (ReconnectOutcome.disabled, disconnect s true)) ∧
    (∀ s : WSState, s.shouldReconnect = true → s.reconnectAttempts = 0 →
      (dropOutcomes 7 s).1 =
        [ReconnectOutcome.scheduledRetry 3000,
         ReconnectOutcome.scheduledRetry 6000,
         ReconnectOutcome.scheduledRetry 9000,
         ReconnectOutcome.scheduledRetry 12000,
         ReconnectOutcome.scheduledRetry 15000,
         ReconnectOutcome.terminalError "Max reconnection attempts reached",
         ReconnectOutcome.terminalError "Max reconnection attempts reached"]) := by
  refine ⟨?_, ?_, ?_, ?_, ?_⟩
  · intro s h1 h2
    simp [onDisconnectDrop, handleReconnect, h1, h2]
  · intro s h1 h2
    simp [onDisconnectDrop, handleReconnect, h1, Nat.not_lt.mpr h2]
  · intro s
    rfl
  · intro s
    constructor
    · simp only [disconnect]
      split <;> rfl
    · have hsr : (disconnect s true).shouldReconnect = false := by
        simp only [disconnect]
        split <;> rfl
      simp [onDisconnectDrop, hsr]
  · intro s h1 h2
    simp [dropOutcomes, onDisconnectDrop, handleReconnect, h1, h2,
      maxReconnectAttempts, reconnectDelay]

/-- Witness for C7 at concrete service states. -/
theorem reconnect_backoff_and_cap_witness :
    onDisconnectDrop ⟨false, false, [], 2, true⟩ =
      (ReconnectOutcome.scheduledRetry 9000, ⟨false, false, [], 3, true⟩) ∧
    onDisconnectDrop ⟨false, false, [], 5, true⟩ =
      (ReconnectOutcome.terminalError "Max reconnection attempts reached",
       ⟨false, false, [], 5, true⟩) ∧
    (onConnectSuccess ⟨true, false, [], 4, true⟩).reconnectAttempts = 0 ∧
    onDisconnectDrop (disconnect ⟨true, true, [], 0, true⟩ true) =
      (ReconnectOutcome.disabled, disconnect ⟨true, true, [], 0, true⟩ true) ∧
    (dropOutcomes 7 ⟨false, false, [], 0, true⟩).1 =
      [ReconnectOutcome.scheduledRetry 3000,
       ReconnectOutcome.scheduledRetry 6000,
       ReconnectOutcome.scheduledRetry 9000,
       ReconnectOutcome.scheduledRetry 12000,
       ReconnectOutcome.scheduledRetry 15000,
       ReconnectOutcome.terminalError "Max reconnection attempts reached",
       ReconnectOutcome.terminalError "Max reconnection attempts reached"] :=
  ⟨reconnect_backoff_and_cap.1 ⟨false, false, [], 2, true⟩ rfl (by decide),
   reconnect_backoff_and_cap.2.1 ⟨false, false, [], 5, true⟩ rfl (by decide),
   reconnect_backoff_and_cap.2.2.1 ⟨true, false, [], 4, true⟩,
   (reconnect_backoff_and_cap.2.2.2.1 ⟨true, true, [], 0, true⟩).2,
   reconnect_backoff_and_cap.2.2.2.2 ⟨false, false, [], 0, true⟩ rfl rfl⟩

/-- C10: a live event carrying neither `id` nor `messageId` is ingested
with id `0`; every locally synthesized SYSTEM notice takes the current
wall clock as its id; consequently timeline entry ids are not unique (two
id-less events both land with id `0`) nor disjoint from server-assigned
ids (a SYSTEM notice can collide with an existing entry's id). -/
theorem default_ids_and_system_ids :
    computeMessageId none none = 0 ∧
    (∀ (now : Int) (ws : WebSocketMessage) (prev : List ChatMessage),
      ws.id = none → ws.messageId = none →
      (newMessageOfWs ws).id = 0 ∧
      (ws.type = MessageType.TALK →
        handleWebSocketMessage now ws prev = prev ++ [newMessageOfWs ws])) ∧
    (∀ (now : Int) (content : String) (prev : List ChatMessage),
      addSystemMessage now content prev =
        prev ++ [systemMessageEntry now content] ∧
      (systemMessageEntry now content).id = now) ∧
    (∀ (now : Int) (ws : WebSocketMessage),
      ws.id = none → ws.messageId = none → ws.type = MessageType.TALK →
      (handleWebSocketMessage now ws (handleWebSocketMessage now ws [])).map
          (fun m => m.id) = [0, 0]) ∧
    (∀ (now : Int) (content : String) (m : ChatMessage), m.id = now →
      (addSystemMessage now content [m]).map (fun m => m.id) = [now, now]) := by
  refine ⟨rfl, ?_, ?_, ?_, ?_⟩
  · intro now ws prev h1 h2
    constructor
    · simp [newMessageOfWs, computeMessageId, h1, h2, jsTruthyNum]
    · intro hty
      simp [handleWebSocketMessage, hty]
  · intro now content prev
    exact ⟨rfl, rfl⟩
  · intro now ws h1 h2 hty
    have hid : (newMessageOfWs ws).id = 0 := by
      simp [newMessageOfWs, computeMessageId, h1, h2, jsTruthyNum]
    simp [handleWebSocketMessage, hty, hid]
  · intro now content m hm
    simp [addSystemMessage, systemMessageEntry, hm]

/-- Witness for C10 at concrete events. -/
theorem default_ids_and_system_ids_witness :
    (newMessageOfWs
        ⟨none, none, MessageType.TALK, RoomType.OPEN, 1, "a", "hi", none, none,
          5, none⟩).id = 0 ∧
    (handleWebSocketMessage 9
        ⟨none, none, MessageType.TALK, RoomType.OPEN, 1, "a", "hi", none, none,
          5, none⟩
        (handleWebSocketMessage 9
          ⟨none, none, MessageType.TALK, RoomType.OPEN, 1, "a", "hi", none,
            none, 5, none⟩ [])).map (fun m => m.id) = [0, 0] ∧
    (systemMessageEntry 77 "notice").id = 77 ∧
    (addSystemMessage 77 "notice" [systemMessageEntry 77 "other"]).map
        (fun m => m.id) = [77, 77] :=
  ⟨(default_ids_and_system_ids.2.1 9
      ⟨none, none, MessageType.TALK, RoomType.OPEN, 1, "a", "hi", none, none, 5,
        none⟩ [] rfl rfl).1,
   default_ids_and_system_ids.2.2.2.1 9
     ⟨none, none, MessageType.TALK, RoomType.OPEN, 1, "a", "hi", none, none, 5,
       none⟩ rfl rfl rfl,
   (default_ids_and_system_ids.2.2.1 77 "notice" []).2,
   default_ids_and_system_ids.2.2.2.2 77 "notice" (systemMessageEntry 77 "other")
     rfl⟩

/-- A map whose function fixes every element of the list is the identity. -/
lemma map_id_of_mem {α : Type} (f : α → α) (l : List α)
    (h : ∀ x ∈ l, f x = x) : l.map f = l := by
  induction l with
  | nil => rfl
  | cons a t ih =>
    simp only [List.map_cons]
    rw [h a (by simp), ih (fun x hx => h x (by simp [hx]))]

/-- The live ANSWER branch with a present, nonzero `refId` maps
`attachAnswerUpdate` over the previous timeline. -/
lemma handleWS_answer_truthy (now : Int) (ws : WebSocketMessage)
    (prev : List ChatMessage) (hty : ws.type = MessageType.ANSWER) (r : Int)
    (hr : ws.refId = some r) (hr0 : r ≠ 0) :
    handleWebSocketMessage now ws prev = prev.map (attachAnswerUpdate ws) := by
  have htr : jsTruthyNum ws.refId = true := by simp [jsTruthyNum, hr, hr0]
  simp [handleWebSocketMessage, hty, htr]

/-- Entry-wise description of the live ANSWER branch. -/
lemma handleWS_answer_get (now : Int) (ws : WebSocketMessage)
    (prev : List ChatMessage) (hty : ws.type = MessageType.ANSWER) (r : Int)
    (hr : ws.refId = some r) (hr0 : r ≠ 0) (i : Nat) (h : i < prev.length)
    (h2 : i < (handleWebSocketMessage now ws prev).length) :
    (handleWebSocketMessage now ws prev).get ⟨i, h2⟩ =
      attachAnswerUpdate ws (prev.get ⟨i, h⟩) := by
  have heq := handleWS_answer_truthy now ws prev hty r hr hr0
  simp only [List.get_eq_getElem, heq, List.getElem_map]

/-- C1 (amended): a live ANSWER never changes the number of flat timeline
entries; an ANSWER whose `refId` is absent - or (the amendment) zero, the
default id, even when a QUESTION with id 0 is in the timeline - is dropped
with the timeline unchanged; an ANSWER whose nonzero `refId` matches no
indexed QUESTION is likewise dropped; when the nonzero `refId` matches a
QUESTION entry, exactly that entry is replaced by itself with the Answer
record `{id, answerer, body, sentAt, accepted := false}` appended and
status "helping" (in particular an OPEN question advances to HELPING) and
every non-matching entry is untouched; and the history loader never emits
a standalone ANSWER entry into the flat timeline. -/
theorem answer_reconciliation (now : Int) (ws : WebSocketMessage)
    (prev : List ChatMessage) (hty : ws.type = MessageType.ANSWER) :
    (handleWebSocketMessage now ws prev).length = prev.length ∧
    (ws.refId = none → handleWebSocketMessage now ws prev = prev) ∧
    (ws.refId = some 0 → handleWebSocketMessage now ws prev = prev) ∧
    (∀ r : Int, ws.refId = some r →
      (∀ m ∈ prev, ¬(m.id = r ∧ m.type = MessageType.QUESTION)) →
      handleWebSocketMessage now ws prev = prev) ∧
    (∀ r : Int, ws.refId = some r → r ≠ 0 →
      ∀ (i : Nat) (h : i < prev.length)
        (h2 : i < (handleWebSocketMessage now ws prev).length),
        ((prev.get ⟨i, h⟩).id = r →
          (prev.get ⟨i, h⟩).type = MessageType.QUESTION →
          (handleWebSocketMessage now ws prev).get ⟨i, h2⟩ =
            { prev.get ⟨i, h⟩ with
              answers := some (((prev.get ⟨i, h⟩).answers.getD []) ++
                [{ id := computeMessageId ws.id ws.messageId
                   answerer := ws.sender
                   content := ws.message
                   timestamp := ws.sentAt
                   isAccepted := some false }])
              status := some "helping" }) ∧
        (¬((prev.get ⟨i, h⟩).id = r ∧
            (prev.get ⟨i, h⟩).type = MessageType.QUESTION) →
          (handleWebSocketMessage now ws prev).get ⟨i, h2⟩ =
            prev.get ⟨i, h⟩)) ∧
    (∀ response : List APIChatMessage,
      ∀ m ∈ loadChatHistoryMessages response, m.type ≠ MessageType.ANSWER) := by
  refine ⟨?_, ?_, ?_, ?_, ?_, ?_⟩
  · simp only [handleWebSocketMessage, hty]
    split
    · exact List.length_map prev _
    · rfl
  · intro hr
    simp [handleWebSocketMessage, hty, jsTruthyNum, hr]
  · intro hr
    simp [handleWebSocketMessage, hty, jsTruthyNum, hr]
  · intro r hr hnone
    by_cases hr0 : r = 0
    · subst hr0
      simp [handleWebSocketMessage, hty, jsTruthyNum, hr]
    · rw [handleWS_answer_truthy now ws prev hty r hr hr0]
      apply map_id_of_mem
      intro x hx
      have hx2 := hnone x hx
      simp only [attachAnswerUpdate]
      rw [if_neg]
      rintro ⟨h1, h2⟩
      rw [hr] at h1
      exact hx2 ⟨Option.some.inj h1, h2⟩
  · intro r hr hr0 i h h2
    constructor
    · intro hid htyq
      rw [handleWS_answer_get now ws prev hty r hr hr0 i h h2]
      simp only [attachAnswerUpdate]
      rw [if_pos ⟨by rw [hid, hr], htyq⟩]
    · intro hnot
      rw [handleWS_answer_get now ws prev hty r hr hr0 i h h2]
      simp only [attachAnswerUpdate]
      rw [if_neg]
      rintro ⟨h1, h2x⟩
      rw [hr] at h1
      exact hnot ⟨Option.some.inj h1, h2x⟩
  · intro response m hm
    simp only [loadChatHistoryMessages] at hm
    have h2 := (List.mem_filter.mp hm).2
    intro hEq
    rw [hEq] at h2
    simp at h2

/-- A live QUESTION arriving with neither `id` nor `messageId`: it is
ingested with id 0. -/
def cexQuestionWs : WebSocketMessage :=
  { id := none, messageId := none, type := MessageType.QUESTION
    roomType := RoomType.OPEN, roomId := 1, sender := "alice"
    message := "why?", refId := none, isSolved := none, sentAt := 10
    imageUrl := none }

/-- The timeline entry produced by ingesting `cexQuestionWs`. -/
def cexZeroIdQuestion : ChatMessage :=
  { id := 0, type := MessageType.QUESTION, sender := "alice", content := "why?"
    imageUrl := none, timestamp := 10, answers := some []
    status := some "open", refId := none, isSolved := none }

/-- A live ANSWER whose `referenceId` is 0, the id of `cexZeroIdQuestion`. -/
def cexZeroRefAnswerWs : WebSocketMessage :=
  { id := some 5, messageId := none, type := MessageType.ANSWER
    roomType := RoomType.OPEN, roomId := 1, sender := "bob"
    message := "because", refId := some 0, isSolved := none, sentAt := 11
    imageUrl := none }

/-- Counterexample to C1 as stated: the timeline holds a QUESTION with
id 0 (produced by an id-less live QUESTION) and an ANSWER arrives whose
`referenceId` equals that id, yet ingestion leaves the timeline unchanged -
the answer is dropped by the JavaScript falsiness check `!wsMessage.refId`
instead of being appended to the matching Question's answer list. -/
theorem answer_reconciliation_counterexample :
    handleWebSocketMessage 0 cexQuestionWs [] = [cexZeroIdQuestion] ∧
    cexZeroIdQuestion.id = 0 ∧
    cexZeroIdQuestion.type = MessageType.QUESTION ∧
    cexZeroRefAnswerWs.type = MessageType.ANSWER ∧
    cexZeroRefAnswerWs.refId = some cexZeroIdQuestion.id ∧
    handleWebSocketMessage 1 cexZeroRefAnswerWs [cexZeroIdQuestion] =
      [cexZeroIdQuestion] ∧
    cexZeroIdQuestion.answers = some [] :=
  ⟨rfl, rfl, rfl, rfl, rfl, rfl, rfl⟩

/-- A QUESTION entry with a normal nonzero id. -/
def wQuestion : ChatMessage :=
  { id := 1, type := MessageType.QUESTION, sender := "alice", content := "q"
    imageUrl := none, timestamp := 1, answers := some []
    status := some "open", refId := none, isSolved := none }

/-- A live ANSWER referencing `wQuestion`. -/
def wAnswerWs : WebSocketMessage :=
  { id := some 7, messageId := none, type := MessageType.ANSWER
    roomType := RoomType.OPEN, roomId := 3, sender := "bob", message := "ans"
    refId := some 1, isSolved := none, sentAt := 2, imageUrl := none }

/-- A live ANSWER whose `refId` matches no question. -/
def wNoMatchAnswerWs : WebSocketMessage :=
  { id := some 8, messageId := none, type := MessageType.ANSWER
    roomType := RoomType.OPEN, roomId := 3, sender := "bob", message := "ans2"
    refId := some 99, isSolved := none, sentAt := 3, imageUrl := none }

/-- Witness for C1 (amended) at concrete inputs: a matching answer is
folded into the open question (which advances to "helping"), and an
unmatched answer is dropped. -/
theorem answer_reconciliation_witness :
    (handleWebSocketMessage 0 wAnswerWs [wQuestion]).length = 1 ∧
    (handleWebSocketMessage 0 wAnswerWs [wQuestion]).get ⟨0, by decide⟩ =
      { wQuestion with
        answers := some [{ id := 7, answerer := "bob", content := "ans"
                           timestamp := 2, isAccepted := some false }]
        status := some "helping" } ∧
    handleWebSocketMessage 0 wNoMatchAnswerWs [wQuestion] = [wQuestion] := by
  have h := answer_reconciliation 0 wAnswerWs [wQuestion] rfl
  refine ⟨h.1, ?_, ?_⟩
  · exact (h.2.2.2.2.1 1 rfl (by decide) 0 (by decide) (by decide)).1 rfl rfl
  · exact (answer_reconciliation 0 wNoMatchAnswerWs [wQuestion] rfl).2.2.2.1 99
      rfl (by decide)

/-- Applying the SOLVE per-entry update twice is the same as applying it
once. -/
lemma solveUpdate_idem (ws : WebSocketMessage) (msg : ChatMessage) :
    solveUpdate ws (solveUpdate ws msg) = solveUpdate ws msg := by
  simp only [solveUpdate]
  by_cases hcond : some msg.id = ws.refId ∧ msg.type = MessageType.QUESTION
  · rw [if_pos hcond, if_pos hcond]
  · rw [if_neg hcond, if_neg hcond]

/-- Marking the answers with the accepted id turns exactly those answers
accepted, provided none was accepted before. -/
lemma acceptedCount_mark (answerId : Int) (l : List HelpAnswer)
    (h : ∀ a ∈ l, a.isAccepted ≠ some true) :
    ((l.map (acceptMarkAnswer answerId)).filter
        (fun a => a.isAccepted == some true)).length =
      (l.filter (fun a => a.id == answerId)).length := by
  induction l with
  | nil => rfl
  | cons a t ih =>
    have ha := h a (List.mem_cons_self a t)
    have iht := ih (fun x hx => h x (List.mem_cons_of_mem a hx))
    by_cases hid : a.id = answerId
    · simp [acceptMarkAnswer, hid, List.filter_cons, iht]
    · simp [acceptMarkAnswer, hid, List.filter_cons, iht, ha]

/-- C2 (amended): a SOLVE with a present, nonzero `referenceId` maps the
per-entry solve update over the timeline and appends a SYSTEM notice
carrying its body; the update sets the matching QUESTION to "resolved"
with `isSolved := true` but leaves its answer list - in particular every
`accepted` flag - unchanged (acceptance is marked only by the local
accept action `handleAcceptAnswer`); entries that do not match are
untouched, and a missing or zero `referenceId` appends only the SYSTEM
notice; a second SOLVE for the same reference leaves every timeline entry
of the first result unchanged and merely appends another SYSTEM notice
(no toggling or double-application); and the local accept action followed
by the SOLVE broadcast leaves the question with exactly one accepted
answer. -/
theorem solve_reconciliation (now : Int) (ws : WebSocketMessage)
    (prev : List ChatMessage) (hty : ws.type = MessageType.SOLVE) :
    (∀ r : Int, ws.refId = some r → r ≠ 0 →
      handleWebSocketMessage now ws prev =
        prev.map (solveUpdate ws) ++ [systemMessageEntry now ws.message]) ∧
    ((ws.refId = none ∨ ws.refId = some 0) →
      handleWebSocketMessage now ws prev =
        prev ++ [systemMessageEntry now ws.message]) ∧
    (∀ msg : ChatMessage, (solveUpdate ws msg).answers = msg.answers) ∧
    (∀ msg : ChatMessage, acceptedCount (solveUpdate ws msg) = acceptedCount msg) ∧
    (∀ msg : ChatMessage, some msg.id = ws.refId →
      msg.type = MessageType.QUESTION →
      solveUpdate ws msg =
        { msg with status := some "resolved", isSolved := some true }) ∧
    (∀ msg : ChatMessage,
      ¬(some msg.id = ws.refId ∧ msg.type = MessageType.QUESTION) →
      solveUpdate ws msg = msg) ∧
    (∀ now2 : Int,
      handleWebSocketMessage now2 ws (handleWebSocketMessage now ws prev) =
        handleWebSocketMessage now ws prev ++
          [systemMessageEntry now2 ws.message]) ∧
    (∀ (answerId : Int) (q : ChatMessage) (l : List HelpAnswer),
      q.type = MessageType.QUESTION → ws.refId = some q.id → q.id ≠ 0 →
      q.answers = some l →
      (∀ a ∈ l, a.isAccepted ≠ some true) →
      (l.filter (fun a => a.id == answerId)).length = 1 →
      ∀ h2 : 0 < (handleWebSocketMessage now ws
          (acceptAnswerUpdate q.id answerId [q])).length,
        acceptedCount ((handleWebSocketMessage now ws
            (acceptAnswerUpdate q.id answerId [q])).get ⟨0, h2⟩) = 1) := by
  have hansw : ∀ msg : ChatMessage, (solveUpdate ws msg).answers = msg.answers := by
    intro msg
    simp only [solveUpdate]
    split <;> rfl
  refine ⟨?_, ?_, hansw, ?_, ?_, ?_, ?_, ?_⟩
  · intro r hr hr0
    have htr : jsTruthyNum ws.refId = true := by simp [jsTruthyNum, hr, hr0]
    simp [handleWebSocketMessage, hty, htr, addSystemMessage]
  · intro hr
    rcases hr with hr | hr <;>
      simp [handleWebSocketMessage, hty, jsTruthyNum, hr, addSystemMessage]
  · intro msg
    simp only [acceptedCount, hansw]
  · intro msg h1 h2
    simp only [solveUpdate]
    rw [if_pos ⟨h1, h2⟩]
  · intro msg hnot
    simp only [solveUpdate]
    rw [if_neg hnot]
  · intro now2
    cases htr : jsTruthyNum ws.refId with
    | false => simp [handleWebSocketMessage, hty, htr, addSystemMessage]
    | true =>
      have hmap : (prev.map (solveUpdate ws)).map (solveUpdate ws) =
          prev.map (solveUpdate ws) := by
        apply map_id_of_mem
        intro x hx
        obtain ⟨y, hy, rfl⟩ := List.mem_map.mp hx
        exact solveUpdate_idem ws y
      have hsys : ∀ n : Int, solveUpdate ws (systemMessageEntry n ws.message) =
          systemMessageEntry n ws.message := by
        intro n
        simp only [solveUpdate]
        rw [if_neg]
        intro hcond
        have hq : MessageType.SYSTEM = MessageType.QUESTION := hcond.2
        exact absurd hq (by decide)
      simp [handleWebSocketMessage, hty, htr, addSystemMessage, hmap, hsys]
  · intro answerId q l htq hrq hq0 hql hnone hone h2
    have htr : jsTruthyNum ws.refId = true := by simp [jsTruthyNum, hrq, hq0]
    have hupd : acceptAnswerUpdate q.id answerId [q] =
        [{ q with
           answers := some (l.map (acceptMarkAnswer answerId))
           status := some "resolved", isSolved := some true }] := by
      simp [acceptAnswerUpdate, htq, hql]
    have hres : handleWebSocketMessage now ws
        (acceptAnswerUpdate q.id answerId [q]) =
        [{ q with
           answers := some (l.map (acceptMarkAnswer answerId))
           status := some "resolved", isSolved := some true },
         systemMessageEntry now ws.message] := by
      rw [hupd]
      simp [handleWebSocketMessage, hty, htr, addSystemMessage, solveUpdate,
        hrq, htq]
    have hget : (handleWebSocketMessage now ws
        (acceptAnswerUpdate q.id answerId [q])).get ⟨0, h2⟩ =
        { q with
          answers := some (l.map (acceptMarkAnswer answerId))
          status := some "resolved", isSolved := some true } := by
      simp only [List.get_eq_getElem, hres]
      rfl
    rw [hget]
    simp only [acceptedCount, Option.getD]
    exact (acceptedCount_mark answerId l hnone).trans hone

/-- An unaccepted answer attached to `cexSolveQuestion`. -/
def cexSolveAnswer : HelpAnswer :=
  { id := 2, answerer := "bob", content := "because", timestamp := 11
    isAccepted := some false }

/-- A question in status "helping" with one unaccepted answer. -/
def cexSolveQuestion : ChatMessage :=
  { id := 1, type := MessageType.QUESTION, sender := "alice", content := "help"
    imageUrl := none, timestamp := 10, answers := some [cexSolveAnswer]
    status := some "helping", refId := none, isSolved := none }

/-- A SOLVE broadcast referencing `cexSolveQuestion`. -/
def cexSolveWs : WebSocketMessage :=
  { id := some 9, messageId := none, type := MessageType.SOLVE
    roomType := RoomType.OPEN, roomId := 1, sender := "alice"
    message := "solved", refId := some 1, isSolved := some true, sentAt := 12
    imageUrl := none }

/-- The entry `cexSolveQuestion` after the SOLVE mutation. -/
def cexResolvedQuestion : ChatMessage :=
  { cexSolveQuestion with status := some "resolved", isSolved := some true }

/-- Counterexample to C2 as stated: ingesting a SOLVE whose `referenceId`
matches an indexed Question leaves that Question RESOLVED with ZERO
answers marked accepted, not exactly one - the SOLVE branch never touches
the answer list. -/
theorem solve_reconciliation_counterexample :
    handleWebSocketMessage 100 cexSolveWs [cexSolveQuestion] =
      [cexResolvedQuestion, systemMessageEntry 100 "solved"] ∧
    cexResolvedQuestion.status = some "resolved" ∧
    cexResolvedQuestion.answers = some [cexSolveAnswer] ∧
    acceptedCount cexResolvedQuestion = 0 :=
  ⟨rfl, rfl, rfl, rfl⟩

/-- First answer of `wSolveQuestion` (the one that gets accepted). -/
def wSolveAnswer1 : HelpAnswer :=
  { id := 21, answerer := "bob", content := "first", timestamp := 5
    isAccepted := some false }

/-- Second answer of `wSolveQuestion`. -/
def wSolveAnswer2 : HelpAnswer :=
  { id := 22, answerer := "carol", content := "second", timestamp := 6
    isAccepted := some false }

/-- A question with two unaccepted answers. -/
def wSolveQuestion : ChatMessage :=
  { id := 10, type := MessageType.QUESTION, sender := "alice"
    content := "help me", imageUrl := none, timestamp := 4
    answers := some [wSolveAnswer1, wSolveAnswer2], status := some "helping"
    refId := none, isSolved := none }

/-- A SOLVE broadcast referencing `wSolveQuestion`. -/
def wSolveWs : WebSocketMessage :=
  { id := some 30, messageId := none, type := MessageType.SOLVE
    roomType := RoomType.OPEN, roomId := 1, sender := "alice"
    message := "done", refId := some 10, isSolved := some true, sentAt := 9
    imageUrl := none }

/-- Witness for C2 (amended) at concrete inputs: the SOLVE resolves the
question and appends the notice, a duplicate SOLVE only appends another
notice, and accept-then-SOLVE yields exactly one accepted answer. -/
theorem solve_reconciliation_witness :
    handleWebSocketMessage 50 wSolveWs [wSolveQuestion] =
      [wSolveQuestion].map (solveUpdate wSolveWs) ++
        [systemMessageEntry 50 wSolveWs.message] ∧
    handleWebSocketMessage 60 wSolveWs
        (handleWebSocketMessage 50 wSolveWs [wSolveQuestion]) =
      handleWebSocketMessage 50 wSolveWs [wSolveQuestion] ++
        [systemMessageEntry 60 wSolveWs.message] ∧
    acceptedCount
        ((handleWebSocketMessage 50 wSolveWs
            (acceptAnswerUpdate 10 21 [wSolveQuestion])).get ⟨0, by decide⟩) =
      1 := by
  have h := solve_reconciliation 50 wSolveWs [wSolveQuestion] rfl
  exact ⟨h.1 10 rfl (by decide),
         h.2.2.2.2.2.2.1 60,
         h.2.2.2.2.2.2.2 21 wSolveQuestion [wSolveAnswer1, wSolveAnswer2] rfl
           rfl (by decide) rfl (by decide) (by decide) (by decide)⟩

/-- C3 (amended): the live handler performs no duplicate-id check.
Re-ingesting a TALK event whose computed id already occurs in the timeline
appends a second entry all the same: the timeline grows by one and the
number of entries carrying that id increases by one. -/
theorem duplicate_id_reingestion (now : Int) (ws : WebSocketMessage)
    (prev : List ChatMessage) (hty : ws.type = MessageType.TALK)
    (_hdup : ∃ m ∈ prev, m.id = computeMessageId ws.id ws.messageId) :
    handleWebSocketMessage now ws prev = prev ++ [newMessageOfWs ws] ∧
    (handleWebSocketMessage now ws prev).length = prev.length + 1 ∧
    ((handleWebSocketMessage now ws prev).filter
        (fun m => m.id == computeMessageId ws.id ws.messageId)).length =
      (prev.filter
        (fun m => m.id == computeMessageId ws.id ws.messageId)).length + 1 := by
  have h1 : handleWebSocketMessage now ws prev = prev ++ [newMessageOfWs ws] := by
    simp [handleWebSocketMessage, hty]
  refine ⟨h1, ?_, ?_⟩
  · rw [h1]
    simp
  · rw [h1]
    rw [List.filter_append]
    have hid : (newMessageOfWs ws).id = computeMessageId ws.id ws.messageId := rfl
    simp [hid]

/-- A live TALK event with server id 7. -/
def cexTalkWs : WebSocketMessage :=
  { id := some 7, messageId := none, type := MessageType.TALK
    roomType := RoomType.OPEN, roomId := 1, sender := "alice", message := "hi"
    refId := none, isSolved := none, sentAt := 20, imageUrl := none }

/-- Counterexample to C3 as stated: delivering the same event (same id)
twice is NOT a no-op - the second ingestion re-appends the entry, leaving
two timeline entries with id 7. -/
theorem duplicate_id_counterexample :
    handleWebSocketMessage 0 cexTalkWs (handleWebSocketMessage 0 cexTalkWs []) =
      [newMessageOfWs cexTalkWs, newMessageOfWs cexTalkWs] ∧
    (newMessageOfWs cexTalkWs).id = 7 ∧
    handleWebSocketMessage 0 cexTalkWs (handleWebSocketMessage 0 cexTalkWs []) ≠
      handleWebSocketMessage 0 cexTalkWs [] :=
  ⟨rfl, rfl, by decide⟩

/-- Witness for C3 (amended): re-ingesting `cexTalkWs` over a timeline
already containing its entry appends a duplicate. -/
theorem duplicate_id_reingestion_witness :
    handleWebSocketMessage 0 cexTalkWs [newMessageOfWs cexTalkWs] =
      [newMessageOfWs cexTalkWs] ++ [newMessageOfWs cexTalkWs] ∧
    (handleWebSocketMessage 0 cexTalkWs [newMessageOfWs cexTalkWs]).length =
      1 + 1 ∧
    ((handleWebSocketMessage 0 cexTalkWs [newMessageOfWs cexTalkWs]).filter
        (fun m => m.id == computeMessageId cexTalkWs.id cexTalkWs.messageId)).length =
      ([newMessageOfWs cexTalkWs].filter
        (fun m => m.id == computeMessageId cexTalkWs.id cexTalkWs.messageId)).length
        + 1 := by
  have h := duplicate_id_reingestion 0 cexTalkWs [newMessageOfWs cexTalkWs] rfl
    ⟨newMessageOfWs cexTalkWs, by decide⟩
  exact ⟨h.1, by simpa using h.2.1, h.2.2⟩

/-- C4 (amended): `joinRoom` starts the history fetch without awaiting it
before subscribing, so history reconciliation and live deliveries
interleave.  In the interleaving where the history response is reconciled
BEFORE the live ANSWER is delivered, the answer is attached to its history
QUESTION exactly once (the entry count is unchanged, the matching entry
gains exactly the one answer record, every other entry is untouched).  In
any other interleaving the history completion replaces the whole timeline:
everything reconciled before it - including a live ANSWER processed while
its question was not yet indexed, which was already dropped - is
discarded. -/
theorem history_then_live (resp : List APIChatMessage) (now : Int)
    (ws : WebSocketMessage) (r : Int) (hty : ws.type = MessageType.ANSWER)
    (hr : ws.refId = some r) (hr0 : r ≠ 0) :
    (runJoin [JoinEvent.historyArrives resp, JoinEvent.live now ws]).length =
      (loadChatHistoryMessages resp).length ∧
    (∀ (i : Nat) (h : i < (loadChatHistoryMessages resp).length)
        (h2 : i < (runJoin [JoinEvent.historyArrives resp,
            JoinEvent.live now ws]).length),
      (((loadChatHistoryMessages resp).get ⟨i, h⟩).id = r →
        ((loadChatHistoryMessages resp).get ⟨i, h⟩).type =
          MessageType.QUESTION →
        (runJoin [JoinEvent.historyArrives resp, JoinEvent.live now ws]).get
            ⟨i, h2⟩ =
          { (loadChatHistoryMessages resp).get ⟨i, h⟩ with
            answers := some
              ((((loadChatHistoryMessages resp).get ⟨i, h⟩).answers.getD [])
                ++
                [{ id := computeMessageId ws.id ws.messageId
                   answerer := ws.sender
                   content := ws.message
                   timestamp := ws.sentAt
                   isAccepted := some false }])
            status := some "helping" }) ∧
      (¬(((loadChatHistoryMessages resp).get ⟨i, h⟩).id = r ∧
          ((loadChatHistoryMessages resp).get ⟨i, h⟩).type =
            MessageType.QUESTION) →
        (runJoin [JoinEvent.historyArrives resp, JoinEvent.live now ws]).get
            ⟨i, h2⟩ = (loadChatHistoryMessages resp).get ⟨i, h⟩)) ∧
    (∀ pre : List JoinEvent,
      runJoin (pre ++ [JoinEvent.historyArrives resp]) =
        loadChatHistoryMessages resp) := by
  have hrj : runJoin [JoinEvent.historyArrives resp, JoinEvent.live now ws] =
      handleWebSocketMessage now ws (loadChatHistoryMessages resp) := rfl
  refine ⟨?_, ?_, ?_⟩
  · rw [hrj]
    have htr : jsTruthyNum ws.refId = true := by simp [jsTruthyNum, hr, hr0]
    simp [handleWebSocketMessage, hty, htr]
  · intro i h h2
    have hg : (runJoin [JoinEvent.historyArrives resp,
        JoinEvent.live now ws]).get ⟨i, h2⟩ =
        attachAnswerUpdate ws ((loadChatHistoryMessages resp).get ⟨i, h⟩) :=
      handleWS_answer_get now ws (loadChatHistoryMessages resp) hty r hr hr0 i
        h h2
    constructor
    · intro hid htyq
      rw [hg]
      simp only [attachAnswerUpdate]
      rw [if_pos ⟨by rw [hid, hr], htyq⟩]
    · intro hnot
      rw [hg]
      simp only [attachAnswerUpdate]
      rw [if_neg]
      rintro ⟨h1x, h2x⟩
      rw [hr] at h1x
      exact hnot ⟨Option.some.inj h1x, h2x⟩
  · intro pre
    simp [runJoin, List.foldl_append, joinStep]

/-- A QUESTION sitting in history page 0. -/
def cexHistQuestion : APIChatMessage :=
  { id := 1, type := MessageType.QUESTION, roomType := RoomType.OPEN
    roomId := 2, sender := "alice", message := "q", refId := none
    isSolved := none, sentAt := 5, imageUrl := none }

/-- A live ANSWER for `cexHistQuestion` arriving right after the
subscription completes. -/
def cexLiveAnswerWs : WebSocketMessage :=
  { id := some 2, messageId := none, type := MessageType.ANSWER
    roomType := RoomType.OPEN, roomId := 2, sender := "bob", message := "a"
    refId := some 1, isSolved := none, sentAt := 6, imageUrl := none }

/-- Counterexample to C4 as stated: in the interleaving where the live
ANSWER for the history QUESTION is delivered before the history response
is reconciled (possible because `loadChatHistory` is not awaited before
`subscribe`), the answer is dropped - the final timeline contains the
question with an empty answer list. -/
theorem history_then_live_counterexample :
    runJoin [JoinEvent.live 6 cexLiveAnswerWs,
        JoinEvent.historyArrives [cexHistQuestion]] =
      [baseMessageOfApi cexHistQuestion] ∧
    (baseMessageOfApi cexHistQuestion).id = 1 ∧
    (baseMessageOfApi cexHistQuestion).type = MessageType.QUESTION ∧
    cexLiveAnswerWs.refId = some 1 ∧
    (baseMessageOfApi cexHistQuestion).answers = some [] :=
  ⟨rfl, rfl, rfl, rfl, rfl⟩

/-- The history question with the live answer attached. -/
def wAttachedHistQuestion : ChatMessage :=
  { id := 1, type := MessageType.QUESTION, sender := "alice", content := "q"
    imageUrl := none, timestamp := 5
    answers := some [{ id := 2, answerer := "bob", content := "a"
                       timestamp := 6, isAccepted := some false }]
    status := some "helping", refId := none, isSolved := none }

/-- Witness for C4 (amended) in the history-first interleaving. -/
theorem history_then_live_witness :
    (runJoin [JoinEvent.historyArrives [cexHistQuestion],
        JoinEvent.live 6 cexLiveAnswerWs]).length = 1 ∧
    (runJoin [JoinEvent.historyArrives [cexHistQuestion],
        JoinEvent.live 6 cexLiveAnswerWs]).get ⟨0, by decide⟩ =
      wAttachedHistQuestion ∧
    runJoin ([JoinEvent.live 6 cexLiveAnswerWs] ++
        [JoinEvent.historyArrives [cexHistQuestion]]) =
      loadChatHistoryMessages [cexHistQuestion] := by
  have h := history_then_live [cexHistQuestion] 6 cexLiveAnswerWs 1 rfl rfl
    (by decide)
  exact ⟨h.1, (h.2.1 0 (by decide) (by decide)).1 rfl rfl,
    h.2.2 [JoinEvent.live 6 cexLiveAnswerWs]⟩

/-- C6 (amended): in the open study room, a refresh/tab-close signal while
joined only clears the local current-room marker - no leave-membership and
no session-end call is made; the unmount teardown (in-app navigation away)
runs the leave routine exactly once, issuing exactly one leave-membership
call and no session-end call (the session is ended only by the explicit
exit action); a second leave call while one is in flight is a no-op
(re-entrancy guard).  In the group study room, however, the refresh signal
itself marks the client leaving and issues a leave-membership call against
the server. -/
theorem refresh_vs_navigation (s : OpenRoomState) (g : GroupRoomState)
    (hj : s.hasJoined = true) (hl : s.isLeaving = false)
    (gj : g.hasJoined = true) (gl : g.isLeaving = false)
    (gu : g.hasUserId = true) :
    openHandleBeforeUnload true s = { s with localMarker := false } ∧
    (openHandleBeforeUnload true s).leaveMembershipCalls =
      s.leaveMembershipCalls ∧
    (openHandleBeforeUnload true s).sessionEndCalls = s.sessionEndCalls ∧
    openUnmountCleanup true s =
      { s with isLeaving := true, localMarker := false
               leaveMembershipCalls := s.leaveMembershipCalls + 1
               hasJoined := false } ∧
    (openUnmountCleanup true s).sessionEndCalls = s.sessionEndCalls ∧
    (∀ (p : Bool) (t : OpenRoomState), leaveRoom p (leaveRoom p t) =
      leaveRoom p t) ∧
    (groupHandleBeforeUnload true g).isLeaving = true ∧
    (groupHandleBeforeUnload true g).leaveMembershipCalls =
      g.leaveMembershipCalls + 1 := by
  have hopen : openHandleBeforeUnload true s = { s with localMarker := false } := by
    simp [openHandleBeforeUnload, hj, hl]
  have hleave : leaveRoom true s =
      { s with isLeaving := true, localMarker := false
               leaveMembershipCalls := s.leaveMembershipCalls + 1
               hasJoined := false } := by
    simp [leaveRoom, hl]
  refine ⟨hopen, by rw [hopen], by rw [hopen], ?_, ?_, ?_, ?_, ?_⟩
  · have : openUnmountCleanup true s = leaveRoom true s := by
      simp [openUnmountCleanup, hj, hl]
    rw [this, hleave]
  · have : openUnmountCleanup true s = leaveRoom true s := by
      simp [openUnmountCleanup, hj, hl]
    rw [this, hleave]
  · intro p t
    by_cases hp : p = true
    · subst hp
      by_cases ht : t.isLeaving = true
      · simp [leaveRoom, ht]
      · have ht2 : t.isLeaving = false := by
          cases hv : t.isLeaving
          · rfl
          · exact absurd hv ht
        simp [leaveRoom, ht2]
    · have hp2 : p = false := by
        cases hv : p
        · rfl
        · exact absurd hv hp
      subst hp2
      simp [leaveRoom]
  · simp [groupHandleBeforeUnload, gj, gl, gu]
  · simp [groupHandleBeforeUnload, gj, gl, gu]

/-- A freshly joined group study room client. -/
def cexGroupJoined : GroupRoomState :=
  { hasJoined := true, isLeaving := false, hasUserId := true
    leaveMembershipCalls := 0 }

/-- Counterexample to C6 as stated: in the group study room
(`src/unnamed/part_001`, one of the two code locations the claim covers),
the page-refresh/tab-close signal while joined DOES make a
leave-membership call against the server (one keepalive `POST .../leave`),
contradicting "makes no leave-membership or session-end call". -/
theorem refresh_vs_navigation_counterexample :
    (groupHandleBeforeUnload true cexGroupJoined).leaveMembershipCalls = 1 ∧
    cexGroupJoined.leaveMembershipCalls = 0 ∧
    (groupHandleBeforeUnload true cexGroupJoined).isLeaving = true :=
  ⟨rfl, rfl, rfl⟩

/-- A freshly joined open study room client. -/
def wOpenJoined : OpenRoomState :=
  { hasJoined := true, isLeaving := false, localMarker := true
    leaveMembershipCalls := 0, sessionEndCalls := 0 }

/-- Witness for C6 (amended) at concrete room states. -/
theorem refresh_vs_navigation_witness :
    openHandleBeforeUnload true wOpenJoined =
      { wOpenJoined with localMarker := false } ∧
    (openHandleBeforeUnload true wOpenJoined).leaveMembershipCalls = 0 ∧
    (openHandleBeforeUnload true wOpenJoined).sessionEndCalls = 0 ∧
    openUnmountCleanup true wOpenJoined =
      { wOpenJoined with isLeaving := true, localMarker := false
                         leaveMembershipCalls := 1, hasJoined := false } ∧
    (openUnmountCleanup true wOpenJoined).sessionEndCalls = 0 ∧
    leaveRoom true (leaveRoom true wOpenJoined) = leaveRoom true wOpenJoined ∧
    (groupHandleBeforeUnload true cexGroupJoined).isLeaving = true ∧
    (groupHandleBeforeUnload true cexGroupJoined).leaveMembershipCalls = 1 := by
  have h := refresh_vs_navigation wOpenJoined cexGroupJoined rfl rfl rfl rfl rfl
  exact ⟨h.1, h.2.1, h.2.2.1, h.2.2.2.1, h.2.2.2.2.1,
    h.2.2.2.2.2.1 true wOpenJoined, h.2.2.2.2.2.2.1, h.2.2.2.2.2.2.2⟩

end StudyRoom
